import Mathlib

/-!
Shallow embedding of the GEOINT incident-verification scoring engine.

Sources embedded:
* `src/backend/app/services/verification.py` — `calculate_verification_score`,
  `check_spatial_plausibility`, `check_temporal_plausibility`,
  `check_cross_verification`, `check_description_quality`.
* `src/backend/app/models/user.py` — `User.update_trust_score`.
* `src/backend/app/utils/spatial_utils.py` — `validate_nigerian_coordinates`,
  `haversine_distance`.
* `src/backend/app/api/routes/incidents.py` — the get-or-create reporter block
  of `create_incident`.

Modelling conventions: Python float arithmetic is embedded as exact rational
arithmetic over ℚ (ℝ for the trigonometric haversine formula); datetimes are
integer epoch seconds, so `timedelta.days` becomes integer division by 86400;
the `datetime.now(timezone.utc)` clock read inside `check_temporal_plausibility`
is surfaced as an explicit `now` argument threaded through the aggregator; the
SQL incident store is a list of rows, and the PostGIS `ST_DWithin(location,
point, 0.09)` geometry test is the Euclidean degree distance comparison, stated
on squares to stay in ℚ.
-/

namespace Geoint

/-- Python `max(0.0, min(1.0, x))`, the clamp used by both the aggregator and
the trust updater. -/
def clamp01 (x : ℚ) : ℚ := max 0 (min 1 x)

/-- The `IncidentType` enum of `src/backend/app/models/incident.py`. -/
inductive IncidentType where
  | armed_attack
  | kidnapping
  | banditry
  | insurgent_attack
  | farmer_herder_clash
  | robbery
  | communal_clash
  | cattle_rustling
  | bomb_blast
  | shooting
  | other
deriving DecidableEq, Repr

/-- The `NIGERIA_BOUNDS` dict of `src/backend/app/config.py`. -/
structure BoundsBox where
  min_lat : ℚ
  max_lat : ℚ
  min_lon : ℚ
  max_lon : ℚ

def NIGERIA_BOUNDS : BoundsBox :=
  { min_lat := 4.0, max_lat := 14.0, min_lon := 2.5, max_lon := 15.0 }

/-- `validate_nigerian_coordinates` of `spatial_utils.py`: bounding-box test. -/
def validate_nigerian_coordinates (longitude latitude : ℚ) : Bool :=
  decide (NIGERIA_BOUNDS.min_lon ≤ longitude) &&
  decide (longitude ≤ NIGERIA_BOUNDS.max_lon) &&
  decide (NIGERIA_BOUNDS.min_lat ≤ latitude) &&
  decide (latitude ≤ NIGERIA_BOUNDS.max_lat)

/-- `check_spatial_plausibility` of `verification.py`: 0.0 outside the national
bounding box, otherwise the conflict-zone rectangle heuristic. -/
def check_spatial_plausibility (latitude longitude : ℚ)
    (incident_type : IncidentType) : ℚ :=
  if validate_nigerian_coordinates longitude latitude = false then 0
  else if incident_type = .insurgent_attack ∨ incident_type = .bomb_blast then
    if 10.5 ≤ latitude ∧ latitude ≤ 13.9 ∧ 11.0 ≤ longitude ∧ longitude ≤ 14.5
    then 0.9 else 0.6
  else if incident_type = .banditry ∨ incident_type = .kidnapping ∨
      incident_type = .cattle_rustling then
    if 11.0 ≤ latitude ∧ latitude ≤ 13.5 ∧ 4.0 ≤ longitude ∧ longitude ≤ 9.0
    then 0.9 else 0.7
  else if incident_type = .farmer_herder_clash then
    if 6.5 ≤ latitude ∧ latitude ≤ 10.0 ∧ 7.0 ≤ longitude ∧ longitude ≤ 10.0
    then 0.9 else 0.7
  else 0.7

/-- `check_temporal_plausibility` of `verification.py`. Timestamps are epoch
seconds; the internal `datetime.now(timezone.utc)` read is the explicit `now`
argument; Python `(now - timestamp).days` is integer division by 86400 (the
difference is nonnegative in the branch where it is taken). The unused
`incident_type` parameter is kept from the source signature. -/
def check_temporal_plausibility (timestamp : ℤ) (incident_type : IncidentType)
    (now : ℤ) : ℚ :=
  if now < timestamp then 0
  else
    let days_old : ℤ := (now - timestamp) / 86400
    if 7 < days_old then 0.4
    else if 3 < days_old then 0.6
    else if 1 < days_old then 0.8
    else 1

/-- A stored incident row, restricted to the columns the corroboration query
reads: `location` (as lat/lon degrees), `timestamp`, `incident_type`. -/
structure StoredIncident where
  latitude : ℚ
  longitude : ℚ
  timestamp : ℤ
  incident_type : IncidentType

/-- One row's filter of the corroboration query in `check_cross_verification`:
`ST_DWithin(location, point, 0.09)` (Euclidean degree distance, compared on
squares), `timestamp BETWEEN t-6h AND t+6h` (inclusive), same incident type. -/
def matchesNearby (latitude longitude : ℚ) (timestamp : ℤ)
    (incident_type : IncidentType) (inc : StoredIncident) : Bool :=
  decide ((inc.longitude - longitude) ^ 2 + (inc.latitude - latitude) ^ 2
      ≤ (0.09 : ℚ) ^ 2) &&
  decide (timestamp - 6 * 3600 ≤ inc.timestamp) &&
  decide (inc.timestamp ≤ timestamp + 6 * 3600) &&
  decide (inc.incident_type = incident_type)

/-- The `.count()` of the corroboration query. -/
def nearbyCount (latitude longitude : ℚ) (timestamp : ℤ)
    (incident_type : IncidentType) (db : List StoredIncident) : ℕ :=
  db.countP (matchesNearby latitude longitude timestamp incident_type)

/-- The count-to-score ladder at the end of `check_cross_verification`. -/
def crossScoreOfCount (nearby_count : ℕ) : ℚ :=
  if 3 ≤ nearby_count then 1
  else if nearby_count = 2 then 0.9
  else if nearby_count = 1 then 0.7
  else 0.5

/-- `check_cross_verification` of `verification.py`: count matching rows of the
store, then apply the score ladder. -/
def check_cross_verification (latitude longitude : ℚ) (timestamp : ℤ)
    (incident_type : IncidentType) (db : List StoredIncident) : ℚ :=
  crossScoreOfCount (nearbyCount latitude longitude timestamp incident_type db)

/-- The whitespace class of Python `str.strip()` / `str.split()` (ASCII part):
space, tab, newline, carriage return, vertical tab, form feed. -/
def isPyWs (c : Char) : Bool :=
  c = ' ' || c = '\t' || c = '\n' || c = '\r' || c = '\x0b' || c = '\x0c'

/-- Python `str.strip()` on a character list: drop whitespace from both ends. -/
def pyStrip (s : List Char) : List Char :=
  ((s.dropWhile isPyWs).reverse.dropWhile isPyWs).reverse

/-- Helper for `wordCount`: the flag records whether we are inside a word. -/
def wordCountAux : Bool → List Char → ℕ
  | _, [] => 0
  | inWord, c :: rest =>
    if isPyWs c then wordCountAux false rest
    else (if inWord then 0 else 1) + wordCountAux true rest

/-- Python `len(s.split())`: number of maximal nonempty runs of
non-whitespace characters. -/
def wordCount (s : List Char) : ℕ := wordCountAux false s

/-- Whether `hay` begins with `needle`. -/
def seqStartsWith : List Char → List Char → Bool
  | [], _ => true
  | _ :: _, [] => false
  | a :: as, b :: bs => a == b && seqStartsWith as bs

/-- Python substring membership `needle in hay`. -/
def seqContains (needle : List Char) : List Char → Bool
  | [] => needle.isEmpty
  | c :: rest => seqStartsWith needle (c :: rest) || seqContains needle rest

/-- Python `str.lower()` on a character list (the keywords and the
descriptions involved are ASCII). -/
def pyLower (s : List Char) : List Char := s.map Char.toLower

/-- The `detail_keywords` list of `check_description_quality`. -/
def detail_keywords : List (List Char) :=
  (["armed", "men", "attacked", "village", "town", "killed", "injured",
    "gunmen", "soldiers", "police", "morning", "evening", "night",
    "road", "market", "church", "mosque", "school", "fled", "casualties"]).map
    (fun s => s.toList)

/-- `check_description_quality` of `verification.py`: 0.0 for falsy (empty)
text; otherwise strip, then score 0.5 base + word-count bonus + keyword bonus,
capped at 1.0. Keyword matching is case-insensitive substring search against
the stripped text, as in the source (which matches after reassigning
`description = description.strip()`). -/
def check_description_quality (description : List Char) : ℚ :=
  if description = [] then 0
  else
    let d := pyStrip description
    let word_count := wordCount d
    let keyword_matches :=
      detail_keywords.countP (fun kw => seqContains (pyLower kw) (pyLower d))
    let score1 : ℚ := 0.5
    let score2 : ℚ :=
      if 20 ≤ word_count then score1 + 0.2
      else if 10 ≤ word_count then score1 + 0.1
      else score1
    let score3 : ℚ :=
      if 3 ≤ keyword_matches then score2 + 0.3
      else if 1 ≤ keyword_matches then score2 + 0.15
      else score2
    min 1 score3

/-- `calculate_verification_score` of `verification.py`: the weighted
accumulation of the five component scores, normalised by the accumulated
weight sum and clamped to [0,1]. The clock read of the temporal component is
the explicit `now` argument. -/
def calculate_verification_score (incident_type : IncidentType)
    (latitude longitude : ℚ) (timestamp : ℤ) (reporter_trust_score : ℚ)
    (description : List Char) (db : List StoredIncident) (now : ℤ) : ℚ :=
  let spatial_score := check_spatial_plausibility latitude longitude incident_type
  let temporal_score := check_temporal_plausibility timestamp incident_type now
  let cross_verify_score :=
    check_cross_verification latitude longitude timestamp incident_type db
  let description_score := check_description_quality description
  let score := spatial_score * 0.20 + temporal_score * 0.15
      + reporter_trust_score * 0.30 + cross_verify_score * 0.25
      + description_score * 0.10
  let weight_sum : ℚ := 0.20 + 0.15 + 0.30 + 0.25 + 0.10
  let final_score := if 0 < weight_sum then score / weight_sum else 0.5
  max 0 (min 1 final_score)

/-- `User.update_trust_score` of `models/user.py`, as a pure function of the
three counters (the spec's `recompute_trust`). -/
def update_trust_score (reports_submitted reports_verified
    reports_rejected : ℕ) : ℚ :=
  if reports_submitted = 0 then 0.5
  else
    let verified_rate : ℚ := (reports_verified : ℚ) / (reports_submitted : ℚ)
    let rejected_rate : ℚ := (reports_rejected : ℚ) / (reports_submitted : ℚ)
    let volume_weight : ℚ := min ((reports_submitted : ℚ) / 20) 1
    let base_score := verified_rate * 0.8 + 0.2
    let penalty := rejected_rate * 0.3
    max 0 (min 1 ((base_score - penalty) * volume_weight
        + 0.5 * (1 - volume_weight)))

/-- The reporter fields touched by the submission path of `create_incident`. -/
structure ReporterState where
  trust_score : ℚ
  reports_submitted : ℕ
  reports_verified : ℕ
  reports_rejected : ℕ

/-- The get-or-create reporter block of `create_incident`
(`api/routes/incidents.py`): when no user matches the reporter's phone number a
new `User` row is added with the column defaults (`reports_submitted = 0`) and
no increment; when a user exists, `reports_submitted += 1`. -/
def reporterAfterSubmission (existing : Option ReporterState) : ReporterState :=
  match existing with
  | none =>
    { trust_score := 0.5, reports_submitted := 0,
      reports_verified := 0, reports_rejected := 0 }
  | some reporter =>
    { reporter with reports_submitted := reporter.reports_submitted + 1 }

/-- `haversine_distance` of `spatial_utils.py`: degree inputs are converted to
radians (`math.radians`), then the haversine formula with mean Earth radius
6371 km. -/
noncomputable def haversine_distance (lon1 lat1 lon2 lat2 : ℝ) : ℝ :=
  let l1 := lon1 * (Real.pi / 180)
  let p1 := lat1 * (Real.pi / 180)
  let l2 := lon2 * (Real.pi / 180)
  let p2 := lat2 * (Real.pi / 180)
  let dlon := l2 - l1
  let dlat := p2 - p1
  let a := Real.sin (dlat / 2) ^ 2
      + Real.cos p1 * Real.cos p2 * Real.sin (dlon / 2) ^ 2
  let c := 2 * Real.arcsin (Real.sqrt a)
  c * 6371

/-- Modelled from the spec (amended form of the temporal table): the step
function of exact age in seconds that the truncating day count actually
implements — 0.0 for future timestamps, 0.4 from 8 days of age on, 0.6 from 4
days, 0.8 from 2 days, 1.0 below 2 days. -/
def temporalStepOfAge (timestamp now : ℤ) : ℚ :=
  if now < timestamp then 0
  else if 8 * 86400 ≤ now - timestamp then 0.4
  else if 4 * 86400 ≤ now - timestamp then 0.6
  else if 2 * 86400 ≤ now - timestamp then 0.8
  else 1

/-! ## Theorems -/

/-- C1: for every well-formed input, `calculate_verification_score` returns
the weighted sum of the five component scores (weights 0.20 spatial, 0.15
temporal, 0.30 reporter trust, 0.25 cross-corroboration, 0.10 description
quality) divided by the sum of the weights, and the result is clamped into
[0,1] regardless of the component inputs (the reporter trust input is left
fully arbitrary here). -/
theorem calculate_verification_score_spec (incident_type : IncidentType)
    (latitude longitude : ℚ) (timestamp : ℤ) (reporter_trust_score : ℚ)
    (description : List Char) (db : List StoredIncident) (now : ℤ) :
    calculate_verification_score incident_type latitude longitude timestamp
        reporter_trust_score description db now
      = clamp01 ((check_spatial_plausibility latitude longitude incident_type * 0.20
          + check_temporal_plausibility timestamp incident_type now * 0.15
          + reporter_trust_score * 0.30
          + check_cross_verification latitude longitude timestamp incident_type db * 0.25
          + check_description_quality description * 0.10)
          / (0.20 + 0.15 + 0.30 + 0.25 + 0.10))
    ∧ 0 ≤ calculate_verification_score incident_type latitude longitude timestamp
        reporter_trust_score description db now
    ∧ calculate_verification_score incident_type latitude longitude timestamp
        reporter_trust_score description db now ≤ 1 := by
  refine ⟨?_, le_max_left _ _, max_le (by norm_num) (min_le_left _ _)⟩
  simp only [calculate_verification_score, clamp01]
  rw [if_pos (by norm_num)]

/-- C2 fails as stated: an age of exactly 1.5 days (129600 s) falls in the
claim's "1 day < age ≤ 3 days" bucket, which the claim says scores 0.8, but
the code truncates the age to whole days (`(now - timestamp).days = 1`) and
scores it 1.0; likewise an age of 7.5 days is claimed to score 0.4 but scores
0.6. -/
theorem check_temporal_plausibility_age_truncation :
    ((86400 : ℤ) < 129600 ∧ (129600 : ℤ) ≤ 3 * 86400
      ∧ check_temporal_plausibility 0 .other 129600 ≠ 0.8
      ∧ check_temporal_plausibility 0 .other 129600 = 1)
    ∧ ((7 : ℤ) * 86400 < 648000
      ∧ check_temporal_plausibility 0 .other 648000 ≠ 0.4
      ∧ check_temporal_plausibility 0 .other 648000 = 0.6) := by
  refine ⟨⟨by norm_num, by norm_num, ?_, ?_⟩, by norm_num, ?_, ?_⟩ <;>
    simp [check_temporal_plausibility] <;> norm_num

/-- C2 amended: `check_temporal_plausibility` equals the step function of the
exact age in seconds with the thresholds the whole-day truncation actually
implements: 0.0 when `occurred_at` is in the future, 0.4 when age ≥ 8 days,
0.6 when 4 days ≤ age < 8 days, 0.8 when 2 days ≤ age < 4 days, and 1.0 when
age < 2 days (so an age of 1.5 days scores 1.0 and one of 7.5 days scores
0.6). -/
theorem check_temporal_plausibility_eq_step (timestamp : ℤ)
    (incident_type : IncidentType) (now : ℤ) :
    check_temporal_plausibility timestamp incident_type now
      = temporalStepOfAge timestamp now := by
  simp only [check_temporal_plausibility, temporalStepOfAge]
  split_ifs <;> (first | rfl | omega)

/-- C5: `check_cross_verification` is the score ladder applied to the count of
stored same-type incidents within the 0.09° radius and ±6-hour window; the
ladder takes the table values 1.0 / 0.9 / 0.7 / 0.5 at counts ≥3 / 2 / 1 / 0
and is monotone non-decreasing in the count. -/
theorem check_cross_verification_spec (latitude longitude : ℚ) (timestamp : ℤ)
    (incident_type : IncidentType) (db : List StoredIncident) :
    check_cross_verification latitude longitude timestamp incident_type db
      = crossScoreOfCount (nearbyCount latitude longitude timestamp incident_type db)
    ∧ crossScoreOfCount 0 = 0.5 ∧ crossScoreOfCount 1 = 0.7
    ∧ crossScoreOfCount 2 = 0.9
    ∧ (∀ c : ℕ, 3 ≤ c → crossScoreOfCount c = 1)
    ∧ (∀ c₁ c₂ : ℕ, c₁ ≤ c₂ → crossScoreOfCount c₁ ≤ crossScoreOfCount c₂) := by
  refine ⟨rfl, by norm_num [crossScoreOfCount], by norm_num [crossScoreOfCount],
    by norm_num [crossScoreOfCount], ?_, ?_⟩
  · intro c hc
    simp [crossScoreOfCount, hc]
  · intro c₁ c₂ h
    simp only [crossScoreOfCount]
    split_ifs <;> (first | omega | norm_num)

/-- C5 witness: the ladder values and monotonicity at concrete counts. -/
theorem check_cross_verification_spec_witness :
    crossScoreOfCount 5 = 1
    ∧ crossScoreOfCount 1 ≤ crossScoreOfCount 4 := by
  have h := check_cross_verification_spec 0 0 0 .other []
  exact ⟨h.2.2.2.2.1 5 (by norm_num), h.2.2.2.2.2 1 4 (by norm_num)⟩

/-- C6: any coordinate with latitude outside [4.0, 14.0] or longitude outside
[2.5, 15.0] makes `check_spatial_plausibility` return exactly 0.0, for every
incident type (the function is total, so it cannot raise). -/
theorem check_spatial_plausibility_out_of_bounds (latitude longitude : ℚ)
    (incident_type : IncidentType)
    (h : latitude < 4 ∨ 14 < latitude ∨ longitude < 2.5 ∨ 15 < longitude) :
    check_spatial_plausibility latitude longitude incident_type = 0 := by
  have hval : validate_nigerian_coordinates longitude latitude = false := by
    simp only [validate_nigerian_coordinates, NIGERIA_BOUNDS, Bool.and_eq_false_iff,
      decide_eq_false_iff_not, not_le]
    rcases h with h | h | h | h
    · exact Or.inl (Or.inr (by linarith))
    · exact Or.inr (by linarith)
    · exact Or.inl (Or.inl (Or.inl (by linarith)))
    · exact Or.inl (Or.inl (Or.inr (by linarith)))
  simp [check_spatial_plausibility, hval]

/-- C6 witness: a concrete out-of-bounds point (latitude 20) scores 0.0. -/
theorem check_spatial_plausibility_out_of_bounds_witness :
    check_spatial_plausibility 20 5 .other = 0 :=
  check_spatial_plausibility_out_of_bounds 20 5 .other (by norm_num)

/-- C7 (code bug): on a first non-anonymous submission, `create_incident`
creates the reporter with the column default `reports_submitted = 0` and never
increments it, so the counter after the submission is 0, not 1; only the
existing-reporter branch performs the `+= 1`. -/
theorem reporterAfterSubmission_first_submission_no_increment :
    (reporterAfterSubmission none).reports_submitted = 0
    ∧ ∀ reporter : ReporterState,
        (reporterAfterSubmission (some reporter)).reports_submitted
          = reporter.reports_submitted + 1 := by
  exact ⟨rfl, fun reporter => rfl⟩

/-- C3: with reports_submitted > 0 the trust recomputation is
clamp01((verified_rate * 0.8 + 0.2 - rejected_rate * 0.3) * volume_weight
+ 0.5 * (1 - volume_weight)) with volume_weight = min(submitted/20, 1); with
reports_submitted = 0 it is exactly 0.5; and recompute_trust(10, 8, 2)
= 0.64. -/
theorem update_trust_score_spec (s v r : ℕ) :
    (0 < s → update_trust_score s v r
      = clamp01 ((((v : ℚ) / (s : ℚ)) * 0.8 + 0.2 - ((r : ℚ) / (s : ℚ)) * 0.3)
          * min ((s : ℚ) / 20) 1 + 0.5 * (1 - min ((s : ℚ) / 20) 1)))
    ∧ update_trust_score 0 v r = 0.5
    ∧ update_trust_score 10 8 2 = 0.64 := by
  refine ⟨fun hs => ?_, by simp [update_trust_score],
    by norm_num [update_trust_score, min_def, max_def]⟩
  simp only [update_trust_score, clamp01]
  rw [if_neg (by omega : ¬ s = 0)]

/-- C3 witness: the formula instantiated at (10, 8, 2). -/
theorem update_trust_score_spec_witness :
    update_trust_score 10 8 2
      = clamp01 ((((8 : ℚ) / (10 : ℚ)) * 0.8 + 0.2 - ((2 : ℚ) / (10 : ℚ)) * 0.3)
          * min ((10 : ℚ) / 20) 1 + 0.5 * (1 - min ((10 : ℚ) / 20) 1)) := by
  have h := (update_trust_score_spec 10 8 2).1 (by norm_num)
  simpa using h

/-- C4 fails as stated: with 20 submitted, 0 verified, the pre-clamp value is
negative already at 19 rejected, so raising rejected from 19 to 20 leaves the
clamped trust score at 0 instead of strictly decreasing it. -/
theorem update_trust_score_clamp_floor :
    update_trust_score 20 0 19 = 0 ∧ update_trust_score 20 0 20 = 0 := by
  constructor <;> norm_num [update_trust_score, min_def, max_def]

/-- C4 amended: for fixed submitted > 0 and verified ≤ submitted, increasing
rejected (staying at most submitted) never increases the trust score, and
strictly decreases it whenever the score at the larger rejected count is still
above the clamp floor 0. -/
theorem update_trust_score_rejected_antitone (s v r r' : ℕ)
    (hs : 0 < s) (hv : v ≤ s) (hrr : r < r') (hr' : r' ≤ s) :
    update_trust_score s v r' ≤ update_trust_score s v r
    ∧ (0 < update_trust_score s v r' →
        update_trust_score s v r' < update_trust_score s v r) := by
  have hsQ : (0 : ℚ) < (s : ℚ) := by exact_mod_cast hs
  have key : ∀ t : ℕ, update_trust_score s v t
      = max 0 (min 1 ((((v : ℚ) / (s : ℚ)) * 0.8 + 0.2 - ((t : ℚ) / (s : ℚ)) * 0.3)
          * min ((s : ℚ) / 20) 1 + 0.5 * (1 - min ((s : ℚ) / 20) 1))) := by
    intro t
    simp only [update_trust_score]
    rw [if_neg (by omega : ¬ s = 0)]
  have hW0 : (0 : ℚ) < min ((s : ℚ) / 20) 1 := lt_min (by positivity) one_pos
  have hW1 : min ((s : ℚ) / 20) 1 ≤ 1 := min_le_right _ _
  have hx : ((v : ℚ) / (s : ℚ)) ≤ 1 := (div_le_one hsQ).mpr (by exact_mod_cast hv)
  have hy : (0 : ℚ) ≤ ((r : ℚ) / (s : ℚ)) := by positivity
  have hrQ : ((r : ℚ) / (s : ℚ)) < ((r' : ℚ) / (s : ℚ)) :=
    (div_lt_div_iff_of_pos_right hsQ).mpr (by exact_mod_cast hrr)
  have hUlt : (((v : ℚ) / (s : ℚ)) * 0.8 + 0.2 - ((r' : ℚ) / (s : ℚ)) * 0.3)
        * min ((s : ℚ) / 20) 1 + 0.5 * (1 - min ((s : ℚ) / 20) 1)
      < (((v : ℚ) / (s : ℚ)) * 0.8 + 0.2 - ((r : ℚ) / (s : ℚ)) * 0.3)
        * min ((s : ℚ) / 20) 1 + 0.5 * (1 - min ((s : ℚ) / 20) 1) := by
    nlinarith [mul_pos (sub_pos.mpr hrQ) hW0]
  have h1 : ((v : ℚ) / (s : ℚ)) * 0.8 + 0.2 - ((r : ℚ) / (s : ℚ)) * 0.3 ≤ 1 := by
    linarith
  have h2 := mul_le_mul_of_nonneg_right h1 hW0.le
  have hU1 : (((v : ℚ) / (s : ℚ)) * 0.8 + 0.2 - ((r : ℚ) / (s : ℚ)) * 0.3)
        * min ((s : ℚ) / 20) 1 + 0.5 * (1 - min ((s : ℚ) / 20) 1) ≤ 1 := by
    nlinarith [h2, hW1]
  rw [key r, key r']
  constructor
  · exact max_le_max le_rfl (min_le_min le_rfl hUlt.le)
  · intro hpos
    have hU'pos : (0 : ℚ)
        < (((v : ℚ) / (s : ℚ)) * 0.8 + 0.2 - ((r' : ℚ) / (s : ℚ)) * 0.3)
          * min ((s : ℚ) / 20) 1 + 0.5 * (1 - min ((s : ℚ) / 20) 1) := by
      rcases lt_max_iff.mp hpos with h | h
      · exact absurd h (lt_irrefl 0)
      · exact (lt_min_iff.mp h).2
    have hUpos : (0 : ℚ)
        < (((v : ℚ) / (s : ℚ)) * 0.8 + 0.2 - ((r : ℚ) / (s : ℚ)) * 0.3)
          * min ((s : ℚ) / 20) 1 + 0.5 * (1 - min ((s : ℚ) / 20) 1) :=
      lt_trans hU'pos hUlt
    rw [min_eq_right (le_of_lt (lt_of_lt_of_le hUlt hU1)), max_eq_right hU'pos.le,
      min_eq_right hU1, max_eq_right hUpos.le]
    exact hUlt

/-- C4 amended witness: at (submitted, verified) = (10, 8), raising rejected
from 2 to 3 strictly lowers the trust score (0.64 to 0.625). -/
theorem update_trust_score_rejected_antitone_witness :
    update_trust_score 10 8 3 ≤ update_trust_score 10 8 2
    ∧ update_trust_score 10 8 3 < update_trust_score 10 8 2 := by
  have h := update_trust_score_rejected_antitone 10 8 2 3
    (by norm_num) (by norm_num) (by norm_num) (by norm_num)
  exact ⟨h.1, h.2 (by norm_num [update_trust_score, min_def, max_def])⟩

/-- C8 fails as stated: the temporal evaluator reads the wall clock, a hidden
input not among the listed ones. With every listed input identical (type,
coordinates, timestamp, trust, description) and the store unchanged (empty),
two invocations at clock readings 0 and -1 produce different scores (0.425
versus 0.275: the report is recent at the first reading and in the future at
the second). -/
theorem calculate_verification_score_clock_dependent :
    calculate_verification_score .other 20 5 0 0.5 [] [] 0
      ≠ calculate_verification_score .other 20 5 0 0.5 [] [] (-1) := by
  have h1 : check_temporal_plausibility 0 .other 0 = 1 := by
    norm_num [check_temporal_plausibility]
  have h2 : check_temporal_plausibility 0 .other (-1) = 0 := by
    norm_num [check_temporal_plausibility]
  have h3 : check_spatial_plausibility 20 5 .other = 0 := by
    have hval : validate_nigerian_coordinates 5 20 = false := by
      simp only [validate_nigerian_coordinates, NIGERIA_BOUNDS, Bool.and_eq_false_iff,
        decide_eq_false_iff_not, not_le]
      exact Or.inr (by norm_num)
    simp [check_spatial_plausibility, hval]
  have h4 : check_cross_verification 20 5 0 .other [] = 0.5 := rfl
  have h5 : check_description_quality [] = 0 := rfl
  simp only [calculate_verification_score, h1, h2, h3, h4, h5]
  norm_num [min_def, max_def]

/-- C8 amended: the aggregator is a pure function of its explicit inputs —
once the incident-store state and the clock reading consumed by the temporal
evaluator are also held fixed, two invocations with identical inputs yield
identical scores; there is no randomness. -/
theorem calculate_verification_score_deterministic (incident_type : IncidentType)
    (latitude longitude : ℚ) (timestamp : ℤ) (reporter_trust_score : ℚ)
    (description : List Char) (db db' : List StoredIncident) (now now' : ℤ)
    (hdb : db = db') (hnow : now = now') :
    calculate_verification_score incident_type latitude longitude timestamp
        reporter_trust_score description db now
      = calculate_verification_score incident_type latitude longitude timestamp
          reporter_trust_score description db' now' := by
  rw [hdb, hnow]

/-- C8 amended witness: two invocations on concrete identical inputs agree. -/
theorem calculate_verification_score_deterministic_witness :
    calculate_verification_score .other 20 5 0 0.5 [] [] 0
      = calculate_verification_score .other 20 5 0 0.5 [] [] 0 :=
  calculate_verification_score_deterministic .other 20 5 0 0.5 [] [] [] 0 0 rfl rfl

/-- C9: the haversine great-circle distance is symmetric in its two points,
and is exactly 0 on identical points. -/
theorem haversine_distance_symm_and_self :
    (∀ lon1 lat1 lon2 lat2 : ℝ,
        haversine_distance lon1 lat1 lon2 lat2
          = haversine_distance lon2 lat2 lon1 lat1)
    ∧ ∀ lon lat : ℝ, haversine_distance lon lat lon lat = 0 := by
  constructor
  · intro lon1 lat1 lon2 lat2
    have hsin : ∀ x y : ℝ,
        Real.sin ((x - y) / 2) ^ 2 = Real.sin ((y - x) / 2) ^ 2 := by
      intro x y
      rw [show (x - y) / 2 = -((y - x) / 2) by ring, Real.sin_neg, neg_sq]
    simp only [haversine_distance]
    rw [hsin (lat2 * (Real.pi / 180)) (lat1 * (Real.pi / 180)),
      hsin (lon2 * (Real.pi / 180)) (lon1 * (Real.pi / 180)),
      mul_comm (Real.cos (lat1 * (Real.pi / 180))) (Real.cos (lat2 * (Real.pi / 180)))]
  · intro lon lat
    simp [haversine_distance]

/-- C10: the description-quality evaluator reserves 0.0 for empty text only;
any nonempty description made solely of whitespace characters strips to
nothing (zero words, zero keyword matches) and scores the 0.5 baseline. -/
theorem check_description_quality_whitespace :
    check_description_quality [] = 0
    ∧ ∀ s : List Char, s ≠ [] → (∀ c ∈ s, isPyWs c = true) →
        check_description_quality s = 0.5 := by
  refine ⟨rfl, fun s hne hws => ?_⟩
  have h1 : s.dropWhile isPyWs = [] := List.dropWhile_eq_nil_iff.mpr hws
  have hstrip : pyStrip s = [] := by
    simp [pyStrip, h1]
  simp only [check_description_quality, if_neg hne, hstrip]
  have hc : detail_keywords.countP (fun kw => seqContains (pyLower kw) (pyLower [])) = 0 := rfl
  have hw : wordCount ([] : List Char) = 0 := rfl
  rw [hc, hw]
  norm_num [min_def]

/-- C10 witness: a single-space description scores 0.5. -/
theorem check_description_quality_whitespace_witness :
    check_description_quality [' '] = 0.5 :=
  check_description_quality_whitespace.2 [' '] (by decide) (by decide)

end Geoint
